import Mathlib

/-!
Shallow embedding of the role-gated project-tracking application's membership
and authorization core: the MongoDB storage layer (`server/mongodb-storage.ts`
and its object-literal variant), the Express route handlers for project
assignment, removal, visibility, lead transfer and user management
(`server/routes.ts` and its revised variant), and the dashboard aggregator
(`server/storage.ts`).

Identifiers (Mongo ObjectIds / id strings) are abstract tokens; they are
modelled as natural numbers.  Response bodies are reduced to the HTTP status
code plus an enumerated message constant; every message constant corresponds
to one string literal in the source.  Timestamps are modelled as integers
(milliseconds since epoch), matching the `Date` comparisons in the source.
-/

namespace Assi

/-- The closed role enumeration (`userRoleEnum` / mongoose `role` enum). -/
inductive Role
  | admin
  | project_lead
  | developer
deriving DecidableEq, Repr

/-- The closed project status enumeration (`projectStatusEnum`). -/
inductive ProjStatus
  | active
  | completed
  | on_hold
deriving DecidableEq, Repr

/-- A `users` record (fields not consulted by the policy logic are omitted;
names, emails and password hashes never influence a decision). -/
structure User where
  id : Nat
  role : Role
deriving DecidableEq, Repr

/-- A `projects` record as stored (the `createdBy` and `projectLeadId`
columns hold user ids; `projectLeadId` is nullable). -/
structure Project where
  id : Nat
  status : ProjStatus
  deadline : Option Int
  createdBy : Nat
  projectLeadId : Option Nat
deriving DecidableEq, Repr

/-- A `project_assignments` record: the Membership fact
`(projectId, userId, assignedBy)`. -/
structure Assignment where
  projectId : Nat
  userId : Nat
  assignedBy : Nat
deriving DecidableEq, Repr

/-- A `documents` record (only the owning project matters here). -/
structure DocumentRec where
  id : Nat
  projectId : Nat
deriving DecidableEq, Repr

/-- The persisted state: the four collections. -/
structure DB where
  users : List User
  projects : List Project
  assignments : List Assignment
  documents : List DocumentRec
deriving DecidableEq, Repr

/-- One enumerated constant per response-message string literal appearing in
the modelled handlers. -/
inductive Msg
  | insufficientPermissions      -- 403 from requireRole / the inline role gate
  | userIdRequired               -- 400 "User ID is required"
  | userNotFound                 -- 404 "User not found"
  | projectNotFound              -- 404 "Project not found"
  | adminsOnlyAssignLeads        -- 403 "Admins can only assign project leads to projects"
  | notRelatedToProject          -- 403 "You can only assign users to projects you lead, created, or are assigned to"
  | leadsOnlyAssignDevelopers    -- 403 "Project leads can only assign developers to projects"
  | userAlreadyAssigned          -- thrown string "User is already assigned to this project", mapped to 400
  | onlyUpdateOwnProjects        -- 403 "You can only update projects you lead or created"
  | onlyAssignOwnProjects        -- 403 "You can only assign users to projects you lead or created"
  | allFieldsRequired            -- 400 "All fields are required"
  | userAlreadyExists            -- 400 "User already exists"
  | projectLeadIdRequired        -- 400 "Project lead ID is required"
  | projectLeadNotFound          -- 404 "Project lead not found"
  | mustBeLeadOrAdmin            -- 400 "User must be a project lead or admin"
  | invalidRole                  -- 400 "Invalid role"
  | invalidUserData              -- 400 zod validation failure
  | passwordRequired             -- 400 "Password is required"
  | serverError                  -- 500 catch-all
deriving DecidableEq, Repr

/-! Section: JavaScript strict equality at the relation-check sites

`getProjectById` / `getProject` return the project with `createdBy` replaced
by the *populated creator object* (`{ id, email, firstName, lastName }`),
while `projectLeadId` stays a plain id string or `null` (see `formatProject`
in `mongodb-storage.ts` and `convertProject` plus the override in the
object-literal storage variant).  The assign handlers compare these values to
the actor's id string with `===`.  JavaScript strict equality between values
of different types is `false`; an object is `===` only to the very same
reference, never to a string or `null`.  Only string/string, null/null and
object/string comparisons occur at the modelled sites. -/

/-- A JavaScript runtime value as it appears at the `===` sites of the
assign/update handlers. -/
inductive JsValue
  | idString (i : Nat)      -- a plain id string
  | userObject (i : Nat)    -- a populated user object; `.id` gives `i`
  | nullValue
deriving DecidableEq, Repr

/-- JavaScript `===` on the shapes above.  A `userObject` compared with an
`idString` or `nullValue` is never equal (type mismatch); two `userObject`s
are compared by reference in JavaScript, and no such comparison occurs at the
modelled sites, so the catch-all `false` is never consulted for them. -/
def jsStrictEq : JsValue → JsValue → Bool
  | .idString a, .idString b => a == b
  | .nullValue, .nullValue => true
  | _, _ => false

/-- Model of `string | null` (e.g. `project.projectLeadId`) as a JavaScript value. -/
def jsOfOptId : Option Nat → JsValue
  | some i => .idString i
  | none => .nullValue

/-! Section: Storage layer (`MongoDBStorage` in `mongodb-storage.ts`, and the
object-literal `mongoStorage` variant where noted) -/

/-- Model of `User.findById` (`getUser` / `getUserById`). -/
def getUser (db : DB) (id : Nat) : Option User :=
  db.users.find? (fun u => u.id == id)

/-- The shape the route handlers receive from `getProject`/`getProjectById`:
the project with the populated creator object and the assignment list of the
project attached. -/
structure ProjectDetails where
  id : Nat
  status : ProjStatus
  deadline : Option Int
  createdByObject : Nat      -- populated `{id, ...}` object; only `.id` is consulted
  projectLeadId : Option Nat -- stays a plain id string or null after formatting
  assignments : List Assignment
deriving DecidableEq, Repr

/-- Model of `getProject` / `getProjectById`: look the project up by id and attach its
assignments (`ProjectAssignment.find({ projectId })`). -/
def getProjectById (db : DB) (pid : Nat) : Option ProjectDetails :=
  (db.projects.find? (fun p => p.id == pid)).map (fun p =>
    { id := p.id
      status := p.status
      deadline := p.deadline
      createdByObject := p.createdBy
      projectLeadId := p.projectLeadId
      assignments := db.assignments.filter (fun a => a.projectId == p.id) })

/-- Model of `MongoDBStorage.assignUserToProject`: check-then-insert.  If a record for
`(projectId, userId)` already exists the call throws
`'User is already assigned to this project'`; otherwise a new record is
saved. -/
def assignUserToProject (db : DB) (projectId userId assignedBy : Nat) :
    Except Msg DB :=
  if db.assignments.any (fun a => a.projectId == projectId && a.userId == userId) then
    Except.error Msg.userAlreadyAssigned
  else
    Except.ok { db with
      assignments := { projectId := projectId, userId := userId,
                       assignedBy := assignedBy } :: db.assignments }

/-- Model of `MongoDBStorage.removeUserFromProject`:
`ProjectAssignment.findOneAndDelete({ projectId, userId })` — removes the
first matching record, a no-op when none exists. -/
def removeUserFromProject (db : DB) (projectId userId : Nat) : DB :=
  { db with assignments :=
      db.assignments.eraseP (fun a => a.projectId == projectId && a.userId == userId) }

/-- Model of `MongoDBStorage.deleteProject`: deletes the project, then
`ProjectAssignment.deleteMany({ projectId })` and
`Document.deleteMany({ projectId })`. -/
def deleteProject (db : DB) (pid : Nat) : DB :=
  { db with
    projects := db.projects.filter (fun p => !(p.id == pid))
    assignments := db.assignments.filter (fun a => !(a.projectId == pid))
    documents := db.documents.filter (fun d => !(d.projectId == pid)) }

/-- Model of `MongoDBStorage.deleteUser`: `User.findByIdAndDelete(id)` and nothing
else — no `deleteMany` on assignments accompanies it. -/
def deleteUser (db : DB) (uid : Nat) : DB :=
  { db with users := db.users.eraseP (fun u => u.id == uid) }

/-- Model of `getUserProjects` (object-literal storage) / the set of projects the user
holds a membership on: assignments of the user, then
`Project.find({ _id: { $in: projectIds } })`. -/
def getUserProjects (db : DB) (uid : Nat) : List Project :=
  db.projects.filter (fun p =>
    db.assignments.any (fun a => a.userId == uid && a.projectId == p.id))

/-- Model of `getAllProjects`: every project. -/
def getAllProjects (db : DB) : List Project :=
  db.projects

/-- Model of `MongoDBStorage.getProjectsByLead`:
`Project.find({ projectLeadId: userId })`. -/
def getProjectsByLead (db : DB) (uid : Nat) : List Project :=
  db.projects.filter (fun p => p.projectLeadId == some uid)

/-- Model of `MongoDBStorage.getProjectsByUser`: the user's assignments, each populated
with its project.  Modelled as the projects that have an assignment of the
user (each stored project appears once per assignment; assignments are
per-pair so at most once per project once uniqueness holds). -/
def getProjectsByUser (db : DB) (uid : Nat) : List Project :=
  (db.assignments.filter (fun a => a.userId == uid)).filterMap
    (fun a => db.projects.find? (fun p => p.id == a.projectId))

/-- The update payload of `PATCH /api/projects/:id` and
`findByIdAndUpdate`: each field is either absent (outer `none`) or supplies
a new value; `deadline` and `projectLeadId` may be set to `null` (inner
`none`).  Name and description carry no policy content and are omitted like
the other non-consulted columns. -/
structure ProjectUpdates where
  status : Option ProjStatus := none
  deadline : Option (Option Int) := none
  projectLeadId : Option (Option Nat) := none
deriving DecidableEq, Repr

/-- Merge an update payload into a stored project, field by field. -/
def applyUpdates (p : Project) (u : ProjectUpdates) : Project :=
  { p with
    status := u.status.getD p.status
    deadline := u.deadline.getD p.deadline
    projectLeadId := u.projectLeadId.getD p.projectLeadId }

/-- Model of `updateProject` (`Project.findByIdAndUpdate(id, updates)`): the project
with the given id — ids are unique, so at most one record — receives the
updated fields; everything else is untouched. -/
def updateProject (db : DB) (pid : Nat) (u : ProjectUpdates) : DB :=
  { db with projects :=
      db.projects.map (fun p => if p.id == pid then applyUpdates p u else p) }

/-! Section: Route layer

The repository carries two generations of `registerRoutes`; where they drift
the claims name the lines they were written from, and each handler below is
translated from the cited variant (noted per definition). -/

/-- The observable outcome of a request: HTTP status, the response-message
constant (when the handler sends one), and the state after the request. -/
structure RouteResult where
  status : Nat
  msg : Option Msg
  db : DB
deriving DecidableEq, Repr

/-- Model of `POST /api/projects/:id/assign`, from the revised routes variant
(the one whose admin branch restricts targets and whose `catch` maps the
duplicate-assignment message to 400), composed with the duplicate-checking
`assignUserToProject` of `mongodb-storage.ts` that throws exactly the message
the `catch` tests for.  Checks occur in source order: role gate, missing
`userId`, target lookup, project lookup, role-specific permission checks,
storage insert. -/
def assignRoute (db : DB) (actor : User) (projectId : Nat)
    (userIdOpt : Option Nat) : RouteResult :=
  if !(actor.role == .admin || actor.role == .project_lead) then
    { status := 403, msg := some Msg.insufficientPermissions, db := db }
  else
    match userIdOpt with
    | none => { status := 400, msg := some Msg.userIdRequired, db := db }
    | some userId =>
      match getUser db userId with
      | none => { status := 404, msg := some Msg.userNotFound, db := db }
      | some userToAssign =>
        match getProjectById db projectId with
        | none => { status := 404, msg := some Msg.projectNotFound, db := db }
        | some project =>
          if actor.role == .admin then
            if !(userToAssign.role == .project_lead) then
              { status := 403, msg := some Msg.adminsOnlyAssignLeads, db := db }
            else
              match assignUserToProject db projectId userId actor.id with
              | Except.ok db2 => { status := 201, msg := none, db := db2 }
              | Except.error m =>
                if m == Msg.userAlreadyAssigned then
                  { status := 400, msg := some Msg.userAlreadyAssigned, db := db }
                else
                  { status := 500, msg := some Msg.serverError, db := db }
          else
            -- project_lead branch (`req.user!.role === 'project_lead'`)
            let isProjectLead :=
              jsStrictEq (jsOfOptId project.projectLeadId) (.idString actor.id)
            let isProjectCreator :=
              jsStrictEq (.userObject project.createdByObject) (.idString actor.id)
            let isAssignedToProject :=
              project.assignments.any (fun a => a.userId == actor.id)
            if !(isProjectLead || isProjectCreator || isAssignedToProject) then
              { status := 403, msg := some Msg.notRelatedToProject, db := db }
            else if !(userToAssign.role == .developer) then
              { status := 403, msg := some Msg.leadsOnlyAssignDevelopers, db := db }
            else
              match assignUserToProject db projectId userId actor.id with
              | Except.ok db2 => { status := 201, msg := none, db := db2 }
              | Except.error m =>
                if m == Msg.userAlreadyAssigned then
                  { status := 400, msg := some Msg.userAlreadyAssigned, db := db }
                else
                  { status := 500, msg := some Msg.serverError, db := db }

/-- Model of `POST /api/projects/:id/assign` from `server/routes.ts` — the
handler the live wiring reaches (`routes.ts` imports `./storage`, which
delegates to `mongodb-storage.ts`).  Differences from the revised variant:
the admin branch performs no target-role check; the project is fetched only
in the project-lead branch; the relation test has no member disjunct (and
its creator comparison is the same dead object-vs-string `===`); and the
`catch` block is a catch-all, so the duplicate throw from
`assignUserToProject` is answered 500, never 400. -/
def assignRouteV1 (db : DB) (actor : User) (projectId : Nat)
    (userIdOpt : Option Nat) : RouteResult :=
  if !(actor.role == .admin || actor.role == .project_lead) then
    { status := 403, msg := some Msg.insufficientPermissions, db := db }
  else
    match userIdOpt with
    | none => { status := 400, msg := some Msg.userIdRequired, db := db }
    | some userId =>
      match getUser db userId with
      | none => { status := 404, msg := some Msg.userNotFound, db := db }
      | some userToAssign =>
        if actor.role == .project_lead then
          match getProjectById db projectId with
          | none => { status := 404, msg := some Msg.projectNotFound, db := db }
          | some project =>
            if !(jsStrictEq (jsOfOptId project.projectLeadId) (.idString actor.id))
                && !(jsStrictEq (.userObject project.createdByObject) (.idString actor.id)) then
              { status := 403, msg := some Msg.onlyAssignOwnProjects, db := db }
            else if !(userToAssign.role == .developer) then
              { status := 403, msg := some Msg.leadsOnlyAssignDevelopers, db := db }
            else
              match assignUserToProject db projectId userId actor.id with
              | Except.ok db2 => { status := 201, msg := none, db := db2 }
              | Except.error _ => { status := 500, msg := some Msg.serverError, db := db }
        else
          match assignUserToProject db projectId userId actor.id with
          | Except.ok db2 => { status := 201, msg := none, db := db2 }
          | Except.error _ => { status := 500, msg := some Msg.serverError, db := db }

/-- Model of `DELETE /api/projects/:projectId/assign/:userId` (identical in both route
variants): the `requireProjectLead` middleware accepts `admin` and
`project_lead` and rejects everyone else with 403; the handler then calls
`removeUserFromProject` unconditionally and answers 204.  No relation test is
performed. -/
def removeAssignmentRoute (db : DB) (actor : User) (projectId userId : Nat) :
    RouteResult :=
  if actor.role == .admin || actor.role == .project_lead then
    { status := 204, msg := none, db := removeUserFromProject db projectId userId }
  else
    { status := 403, msg := some Msg.insufficientPermissions, db := db }

/-- Model of `GET /api/projects`, from the revised routes variant: admins and project
leads both receive `getAllProjects`; developers receive their assigned
projects (`getUserProjects`). -/
def projectsRoute (db : DB) (actor : User) : List Project :=
  match actor.role with
  | .admin => getAllProjects db
  | .project_lead => getAllProjects db
  | .developer => getUserProjects db actor.id

/-- Model of `PATCH /api/projects/:id/assign-lead` (identical in both route variants):
admin only; requires a `projectLeadId`, looks the user up, rejects with 400
unless their role is `project_lead` or `admin`, then updates the project's
`projectLeadId`. -/
def assignLeadRoute (db : DB) (actor : User) (projectId : Nat)
    (projectLeadIdOpt : Option Nat) : RouteResult :=
  if !(actor.role == .admin) then
    { status := 403, msg := some Msg.insufficientPermissions, db := db }
  else
    match projectLeadIdOpt with
    | none => { status := 400, msg := some Msg.projectLeadIdRequired, db := db }
    | some lid =>
      match getUser db lid with
      | none => { status := 404, msg := some Msg.projectLeadNotFound, db := db }
      | some projectLead =>
        if !(projectLead.role == .project_lead) && !(projectLead.role == .admin) then
          { status := 400, msg := some Msg.mustBeLeadOrAdmin, db := db }
        else
          { status := 200, msg := none
            db := updateProject db projectId { projectLeadId := some (some lid) } }

/-- Model of `PATCH /api/projects/:id`: role gate (admin or project lead); a project
lead must be the project's lead (`project.projectLeadId !== userId`, a
string/null-to-string strict comparison) or its creator
(`project.createdBy.id !== userId` — here the handler correctly reads `.id`
off the populated object); the update payload, `projectLeadId` included, is
then written through without validating any referenced user's role. -/
def patchProjectRoute (db : DB) (actor : User) (pid : Nat)
    (u : ProjectUpdates) : RouteResult :=
  if !(actor.role == .admin || actor.role == .project_lead) then
    { status := 403, msg := some Msg.insufficientPermissions, db := db }
  else if actor.role == .project_lead then
    match getProjectById db pid with
    | none => { status := 404, msg := some Msg.projectNotFound, db := db }
    | some project =>
      if !(jsStrictEq (jsOfOptId project.projectLeadId) (.idString actor.id))
          && !(project.createdByObject == actor.id) then
        { status := 403, msg := some Msg.onlyUpdateOwnProjects, db := db }
      else
        { status := 200, msg := none, db := updateProject db pid u }
  else
    { status := 200, msg := none, db := updateProject db pid u }

/-! Section: User-management routes (`routes.ts`, the variant with the zod
`createUserSchema`) -/

/-- The raw `role` field of a request body before validation: absent, one of
the two enum members, the literal `admin`, or any other string. -/
inductive RoleField
  | absent
  | projectLead
  | developer
  | adminRole
  | other
deriving DecidableEq, Repr

/-- Model of `z.enum(['project_lead', 'developer']).default('developer')`: an absent
field defaults to `developer`; the two enum members pass; `admin` and every
other string raise a `ZodError`. -/
def parseRoleField : RoleField → Option Role
  | .absent => some Role.developer
  | .projectLead => some Role.project_lead
  | .developer => some Role.developer
  | .adminRole => none
  | .other => none

/-- The request body of `POST /api/users`, reduced to what the handler
branches on.  `validProfile` stands for the remaining zod checks (email
format, non-empty names, hash present) together with the storage layer's
email-uniqueness rejection: when any of them fails the handler answers 400
or 500 and creates nothing, so collapsing them loses no behaviour relevant
to role creation. -/
structure CreateUserRequest where
  hasPassword : Bool
  validProfile : Bool
  role : RoleField
deriving DecidableEq, Repr

/-- Model of `POST /api/users`: `requireAdmin`, the password presence check, the
`createUserSchema` parse (role enum with default), then
`storage.createUser`, which saves a user carrying the validated role.
`newId` models the id Mongo mints for the inserted document. -/
def createUserRoute (db : DB) (actor : User) (req : CreateUserRequest)
    (newId : Nat) : RouteResult :=
  if !(actor.role == .admin) then
    { status := 403, msg := some Msg.insufficientPermissions, db := db }
  else if !req.hasPassword then
    { status := 400, msg := some Msg.passwordRequired, db := db }
  else
    match parseRoleField req.role with
    | none => { status := 400, msg := some Msg.invalidUserData, db := db }
    | some r =>
      if !req.validProfile then
        { status := 400, msg := some Msg.invalidUserData, db := db }
      else
        { status := 201, msg := none
          db := { db with users := { id := newId, role := r } :: db.users } }

/-- Model of `PATCH /api/users/:id/role`: `requireAdmin`, then
`['project_lead', 'developer'].includes(role)` — anything else, `admin`
included, is rejected with 400 — then `storage.updateUserRole`
(`User.findByIdAndUpdate(id, { role })`). -/
def updateUserRoleRoute (db : DB) (actor : User) (targetId : Nat)
    (role : RoleField) : RouteResult :=
  if !(actor.role == .admin) then
    { status := 403, msg := some Msg.insufficientPermissions, db := db }
  else if !(role == .projectLead || role == .developer) then
    { status := 400, msg := some Msg.invalidRole, db := db }
  else
    let newRole := if role == .projectLead then Role.project_lead else Role.developer
    let newUsers :=
      db.users.map (fun u => if u.id == targetId then { u with role := newRole } else u)
    { status := 200, msg := none, db := { db with users := newUsers } }

/-- The request body of `POST /api/auth/register` (`server/auth.ts`),
reduced to what the handler branches on: presence of the four required
fields (email, password, firstName, lastName), freshness of the email
(`storage.getUserByEmail` finding no existing user), and the raw `role`
field. -/
structure RegisterRequest where
  fieldsPresent : Bool
  emailFresh : Bool
  role : RoleField
deriving DecidableEq, Repr

/-- The `role` value as the register handler forwards it: the destructuring
default makes an absent field `developer`, and every other value goes to
`createUser` unvalidated — `admin` included, which the storage type and the
mongoose enum accept; a string outside the enum fails mongoose validation on
save and is answered by the catch (500). -/
def rawRole : RoleField → Option Role
  | .absent => some Role.developer
  | .projectLead => some Role.project_lead
  | .developer => some Role.developer
  | .adminRole => some Role.admin
  | .other => none

/-- Model of `POST /api/auth/register` (`server/auth.ts:81-114`): mounted by
`setupAuth` with no authentication middleware; required-fields check,
existing-email check, then `storage.createUser` with the body's `role`
passed straight through. -/
def registerRoute (db : DB) (req : RegisterRequest) (newId : Nat) : RouteResult :=
  if !req.fieldsPresent then
    { status := 400, msg := some Msg.allFieldsRequired, db := db }
  else if !req.emailFresh then
    { status := 400, msg := some Msg.userAlreadyExists, db := db }
  else
    match rawRole req.role with
    | none => { status := 500, msg := some Msg.serverError, db := db }
    | some r =>
      { status := 201, msg := none
        db := { db with users := { id := newId, role := r } :: db.users } }

/-! Section: Dashboard aggregator (`DatabaseStorage.getDashboardStats` in
`server/storage.ts`) -/

/-- The four dashboard counters. -/
structure DashboardStats where
  activeProjects : Nat
  teamMembers : Nat
  dueThisWeek : Nat
  totalDocuments : Nat
deriving DecidableEq, Repr

/-- Model of `oneWeekFromNow.setDate(getDate() + 7)`: seven days in milliseconds. -/
def msPerWeek : Int := 7 * 24 * 60 * 60 * 1000

/-- The deduplication step
`filter((project, index, self) => index === self.findIndex(p => p.id === project.id))`:
keep the first occurrence of each project id. -/
def dedupById (l : List Project) : List Project :=
  go [] l
where
  go (seen : List Nat) : List Project → List Project
    | [] => []
    | p :: rest =>
      if seen.contains p.id then go seen rest
      else p :: go (p.id :: seen) rest

/-- The `dueThisWeek` filter of `getDashboardStats`:
`p.deadline && new Date(p.deadline) <= oneWeekFromNow && new Date(p.deadline) >= new Date()`
— a truthy deadline lying in the inclusive window; no condition on `status`. -/
def dueThisWeekFilter (now : Int) (p : Project) : Bool :=
  match p.deadline with
  | none => false
  | some d => decide (d ≤ now + msPerWeek) && decide (now ≤ d)

/-- The project scope the aggregator computes over, per role: admins get
`getAllProjects`; project leads the deduplicated concatenation of
`getProjectsByLead` and `getProjectsByUser`; everyone else
`getProjectsByUser`. -/
def statsScope (db : DB) (userId : Nat) (userRole : Role) : List Project :=
  match userRole with
  | .admin => getAllProjects db
  | .project_lead => dedupById (getProjectsByLead db userId ++ getProjectsByUser db userId)
  | .developer => getProjectsByUser db userId

/-- Model of `DatabaseStorage.getDashboardStats(userId, userRole)`, computed
over `statsScope`.  `teamMembers` is the size of the set of `userId`s drawn
from `p.assignments` — the three scope queries of `mongodb-storage.ts` all
return `assignments: []`, so that set is always empty.  `totalDocuments`
sums each scope project's document count. -/
def getDashboardStats (db : DB) (userId : Nat) (userRole : Role) (now : Int) :
    DashboardStats :=
  let projects := statsScope db userId userRole
  { activeProjects := (projects.filter (fun p => p.status == .active)).length
    teamMembers := 0
    dueThisWeek := (projects.filter (dueThisWeekFilter now)).length
    totalDocuments :=
      (projects.map (fun p => (db.documents.filter (fun d => d.projectId == p.id)).length)).sum }

/-! Section: specification-side definitions

These definitions follow the wording of the specification (not the code) and
exist to be compared with the behaviour of the code-derived definitions
above. -/

/-- Modelled from the spec: the relation test of section 4.3 —
`lead.id ∈ {project.projectLeadId, project.createdBy} ∪ membersOf(project)`,
read over the stored records. -/
def specRelatedToProject (db : DB) (actorId pid : Nat) : Bool :=
  match db.projects.find? (fun p => p.id == pid) with
  | none => false
  | some p =>
    p.projectLeadId == some actorId || p.createdBy == actorId ||
      db.assignments.any (fun a => a.projectId == pid && a.userId == actorId)

/-- Modelled from the spec: the invariant that `projectLeadId`, if set,
references a user whose role is `project_lead` or `admin`. -/
def projLeadInvB (db : DB) : Bool :=
  db.projects.all (fun p =>
    match p.projectLeadId with
    | none => true
    | some lid =>
      db.users.any (fun u =>
        u.id == lid && (u.role == Role.project_lead || u.role == Role.admin)))

/-- Modelled from the spec: the uniqueness invariant — no two Membership
records share a `(projectId, userId)` pair. -/
def uniquePairsB : List Assignment → Bool
  | [] => true
  | a :: rest =>
    rest.all (fun b => !(b.projectId == a.projectId && b.userId == a.userId)) &&
      uniquePairsB rest

/-! Section: operation sequences over the Membership Store -/

/-- The two Membership Store mutations reachable from the assignment
endpoints. -/
inductive Op
  | assign (projectId userId assignedBy : Nat)
  | remove (projectId userId : Nat)
deriving DecidableEq, Repr

/-- Apply one operation: a rejected duplicate assignment (the thrown error)
leaves the state unchanged; removal is `removeUserFromProject`. -/
def applyOp (db : DB) : Op → DB
  | .assign p u b =>
    match assignUserToProject db p u b with
    | Except.ok db2 => db2
    | Except.error _ => db
  | .remove p u => removeUserFromProject db p u

/-- Run a finite sequence of operations. -/
def runOps (db : DB) (ops : List Op) : DB :=
  ops.foldl applyOp db

theorem uniquePairsB_of_sublist {l₁ l₂ : List Assignment} (hs : l₁.Sublist l₂)
    (h : uniquePairsB l₂ = true) : uniquePairsB l₁ = true := by
  induction hs with
  | slnil => rfl
  | cons a _ ih =>
    rw [uniquePairsB, Bool.and_eq_true] at h
    exact ih h.2
  | cons₂ a hs ih =>
    rw [uniquePairsB, Bool.and_eq_true] at h ⊢
    refine ⟨?_, ih h.2⟩
    rw [List.all_eq_true] at h ⊢
    intro b hb
    exact h.1 b (hs.subset hb)

theorem applyOp_preserves_unique (db : DB) (op : Op)
    (h : uniquePairsB db.assignments = true) :
    uniquePairsB (applyOp db op).assignments = true := by
  cases op with
  | assign p u b =>
    show uniquePairsB (match assignUserToProject db p u b with
      | Except.ok db2 => db2
      | Except.error _ => db).assignments = true
    rw [assignUserToProject]
    by_cases hd : db.assignments.any (fun a => a.projectId == p && a.userId == u) = true
    · simp only [hd, if_true]
      exact h
    · rw [Bool.not_eq_true] at hd
      simp only [hd, Bool.false_eq_true, if_false]
      rw [uniquePairsB, Bool.and_eq_true]
      refine ⟨?_, h⟩
      rw [List.all_eq_true]
      intro x hx
      have hfalse : (x.projectId == p && x.userId == u) = false := by
        by_contra hcon
        rw [Bool.not_eq_false] at hcon
        have : db.assignments.any (fun a => a.projectId == p && a.userId == u) = true :=
          List.any_eq_true.mpr ⟨x, hx, hcon⟩
        rw [this] at hd
        exact absurd hd (by decide)
      simp only [hfalse, Bool.not_false]
  | remove p u =>
    exact uniquePairsB_of_sublist (List.eraseP_sublist _) h

theorem runOps_preserves_unique (db : DB) (ops : List Op)
    (h : uniquePairsB db.assignments = true) :
    uniquePairsB (runOps db ops).assignments = true := by
  induction ops generalizing db with
  | nil => exact h
  | cons op rest ih => exact ih (applyOp db op) (applyOp_preserves_unique db op h)

/-! Section: the claims -/

/-- C4: from a state in which every `(projectId, userId)` pair occurs at most
once, any finite sequence of assignment and removal operations preserves
that uniqueness, and an assignment for a pair that already exists is
rejected (`DuplicateMembership`, the thrown duplicate message) rather than
inserting a second record. -/
theorem membership_uniqueness_invariant (db : DB) (ops : List Op)
    (h : uniquePairsB db.assignments = true) :
    uniquePairsB (runOps db ops).assignments = true ∧
    ∀ p u b, db.assignments.any (fun a => a.projectId == p && a.userId == u) = true →
      assignUserToProject db p u b = Except.error Msg.userAlreadyAssigned := by
  refine ⟨runOps_preserves_unique db ops h, ?_⟩
  intro p u b hdup
  rw [assignUserToProject]
  simp only [hdup, if_true]

/-- Concrete store for the C4 witness: one membership `(1, 2)`. -/
def c4db : DB :=
  { users := [], projects := []
    assignments := [{ projectId := 1, userId := 2, assignedBy := 3 }]
    documents := [] }

/-- Witness for C4: the invariant survives a concrete operation sequence that
includes a duplicate assignment, and the duplicate itself is rejected. -/
theorem membership_uniqueness_invariant_witness :
    uniquePairsB (runOps c4db [Op.assign 1 2 3, Op.assign 4 5 3, Op.remove 1 2]).assignments = true ∧
    assignUserToProject c4db 1 2 3 = Except.error Msg.userAlreadyAssigned := by
  have h := membership_uniqueness_invariant c4db
    [Op.assign 1 2 3, Op.assign 4 5 3, Op.remove 1 2] (by decide)
  exact ⟨h.1, h.2 1 2 3 (by decide)⟩

/-- C1: an ASSIGN by an admin actor on an existing project and an existing
target user is rejected with 403 `InvalidTargetRole`
(`Admins can only assign project leads to projects`) and an unchanged store
whenever the target's role is `developer` or `admin`; and — absent a
pre-existing membership for the pair — it succeeds (201) exactly when the
target's role is `project_lead`. -/
theorem admin_assign_target_restriction (db : DB) (actor target : User)
    (pid uid : Nat) (pd : ProjectDetails)
    (hrole : actor.role = Role.admin)
    (htarget : getUser db uid = some target)
    (hproj : getProjectById db pid = some pd) :
    ((target.role = Role.developer ∨ target.role = Role.admin) →
      assignRoute db actor pid (some uid) =
        { status := 403, msg := some Msg.adminsOnlyAssignLeads, db := db }) ∧
    (db.assignments.any (fun a => a.projectId == pid && a.userId == uid) = false →
      ((assignRoute db actor pid (some uid)).status = 201 ↔
        target.role = Role.project_lead)) := by
  constructor
  · intro htr
    have hne : (target.role == Role.project_lead) = false := by
      rcases htr with h' | h' <;> rw [h'] <;> decide
    rw [assignRoute]
    simp [hrole, htarget, hproj, hne]
  · intro hnodup
    rw [assignRoute, assignUserToProject]
    cases htr : target.role <;>
      simp [hrole, htarget, hproj, htr, hnodup]

/-- Concrete state for C3: an admin, a developer already assigned to
project `1`. -/
def c3db : DB :=
  { users := [{ id := 3, role := Role.admin }, { id := 7, role := Role.developer }]
    projects := [{ id := 1, status := ProjStatus.active, deadline := none,
                   createdBy := 3, projectLeadId := none }]
    assignments := [{ projectId := 1, userId := 7, assignedBy := 3 }]
    documents := [] }

/-- Counterexample to C3: a duplicate assignment of the already-assigned
user `7` makes the storage call fail with the duplicate error, but the live
route (`routes.ts` wired to `storage.ts`/`mongodb-storage.ts`) surfaces it
through its catch-all as 500, not the claimed 400. -/
theorem duplicate_assign_surfaced_as_500 :
    assignUserToProject c3db 1 7 3 = Except.error Msg.userAlreadyAssigned ∧
    assignRouteV1 c3db { id := 3, role := Role.admin } 1 (some 7) =
      { status := 500, msg := some Msg.serverError, db := c3db } := by
  exact ⟨rfl, rfl⟩

/-- C3 (amended): when a membership for `(projectId, userId)` already
exists, the storage call fails with the duplicate error and inserts
nothing, and the live route answers 500 (its catch-all) with the store
unchanged, rather than 400.  (The revised handler does map the duplicate
message to 400, but the storages reachable from it never throw that
message, so its 400 path is dead.) -/
theorem duplicate_assign_rejected (db : DB) (actor target : User)
    (pid uid : Nat)
    (hdup : db.assignments.any (fun a => a.projectId == pid && a.userId == uid) = true) :
    (∀ b, assignUserToProject db pid uid b = Except.error Msg.userAlreadyAssigned) ∧
    (actor.role = Role.admin → getUser db uid = some target →
      assignRouteV1 db actor pid (some uid) =
        { status := 500, msg := some Msg.serverError, db := db }) := by
  constructor
  · intro b
    rw [assignUserToProject]
    simp only [hdup, if_true]
  · intro hrole htarget
    rw [assignRouteV1, assignUserToProject]
    simp [hrole, htarget, hdup]

/-- Concrete state for the C1 and C3 witnesses: an admin actor, a
project-lead target, a developer target, a project, and one pre-existing
membership `(1, 7)`. -/
def c13db : DB :=
  { users := [{ id := 3, role := Role.admin }, { id := 6, role := Role.project_lead },
              { id := 7, role := Role.developer }, { id := 8, role := Role.project_lead }]
    projects := [{ id := 1, status := ProjStatus.active, deadline := none,
                   createdBy := 3, projectLeadId := none }]
    assignments := [{ projectId := 1, userId := 7, assignedBy := 3 }]
    documents := [] }

/-- Witness for C1: at the concrete state, the admin's assignment of the
developer `7` is rejected 403 with the store unchanged, and the assignment of
the project lead `6` (no prior membership) succeeds. -/
theorem admin_assign_target_restriction_witness :
    assignRoute c13db { id := 3, role := Role.admin } 1 (some 7) =
      { status := 403, msg := some Msg.adminsOnlyAssignLeads, db := c13db } ∧
    (assignRoute c13db { id := 3, role := Role.admin } 1 (some 6)).status = 201 := by
  have h7 := admin_assign_target_restriction c13db { id := 3, role := Role.admin }
    { id := 7, role := Role.developer } 1 7
    ((getProjectById c13db 1).get (by decide)) rfl (by decide) (by decide)
  have h6 := admin_assign_target_restriction c13db { id := 3, role := Role.admin }
    { id := 6, role := Role.project_lead } 1 6
    ((getProjectById c13db 1).get (by decide)) rfl (by decide) (by decide)
  exact ⟨h7.1 (Or.inl rfl), (h6.2 (by decide)).mpr rfl⟩

/-- Witness for the amended C3: at the concrete state, every attempted
re-insertion of the pair `(1, 7)` errors at the storage layer, and the
admin's duplicate request through the live route is answered 500 with the
store unchanged. -/
theorem duplicate_assign_rejected_witness :
    assignUserToProject c3db 1 7 9 = Except.error Msg.userAlreadyAssigned ∧
    (assignRouteV1 c3db { id := 3, role := Role.admin } 1 (some 7)).db = c3db := by
  have h := duplicate_assign_rejected c3db { id := 3, role := Role.admin }
    { id := 7, role := Role.developer } 1 7 (by decide)
  refine ⟨h.1 9, ?_⟩
  rw [h.2 rfl (by decide)]

/-- Concrete state for C2: user `5` is a project lead and the creator
(`createdBy = 5`) of project `1`, but not its designated lead (`9` is) and
not a member; user `7` is a developer. -/
def c2db : DB :=
  { users := [{ id := 5, role := Role.project_lead }, { id := 7, role := Role.developer },
              { id := 9, role := Role.project_lead }]
    projects := [{ id := 1, status := ProjStatus.active, deadline := none,
                   createdBy := 5, projectLeadId := some 9 }]
    assignments := [], documents := [] }

/-- C2 (the creator disjunct is dead code): the spec's relation test holds
for actor `5` on project `1` — they are its creator — yet the assign request
is rejected 403 `NotRelatedToProject`.  The handler compares the populated
creator object `project.createdBy` against the actor's id string with `===`
(an object/string comparison, always false), even though the PATCH handler
in the same file reads `project.createdBy.id` for the very same test. -/
theorem creator_lead_assign_rejected :
    specRelatedToProject c2db 5 1 = true ∧
    assignRoute c2db { id := 5, role := Role.project_lead } 1 (some 7) =
      { status := 403, msg := some Msg.notRelatedToProject, db := c2db } := by
  decide

/-- Concrete state for C5: user `5` is a project lead with no relation to
project `1` (its lead and creator is `9`); developer `2` is a member. -/
def c5db : DB :=
  { users := [{ id := 5, role := Role.project_lead }, { id := 2, role := Role.developer },
              { id := 9, role := Role.project_lead }]
    projects := [{ id := 1, status := ProjStatus.active, deadline := none,
                   createdBy := 9, projectLeadId := some 9 }]
    assignments := [{ projectId := 1, userId := 2, assignedBy := 9 }]
    documents := [] }

/-- Counterexample to C5: a project-lead actor with no lead/creator/member
relation to the project still removes a membership successfully (204), where
the claim demands a `NotRelatedToProject` failure. -/
theorem unrelated_lead_remove_succeeds :
    specRelatedToProject c5db 5 1 = false ∧
    removeAssignmentRoute c5db { id := 5, role := Role.project_lead } 1 2 =
      { status := 204, msg := none, db := { c5db with assignments := [] } } := by
  decide

/-- C5 (amended): REMOVE is gated by role alone — permitted unconditionally
for `admin` and for `project_lead` (no relation test is performed), and
denied 403 for `developer` with the store unchanged. -/
theorem remove_role_gate_only (db : DB) (actor : User) (pid uid : Nat) :
    (actor.role = Role.developer →
      removeAssignmentRoute db actor pid uid =
        { status := 403, msg := some Msg.insufficientPermissions, db := db }) ∧
    ((actor.role = Role.admin ∨ actor.role = Role.project_lead) →
      removeAssignmentRoute db actor pid uid =
        { status := 204, msg := none, db := removeUserFromProject db pid uid }) := by
  constructor
  · intro h
    rw [removeAssignmentRoute]
    simp [h]
  · intro h
    rw [removeAssignmentRoute]
    rcases h with h | h <;> simp [h]

/-- Witness for the amended C5 at the concrete state: the unrelated lead's
removal goes through, a developer's attempt is refused. -/
theorem remove_role_gate_only_witness :
    removeAssignmentRoute c5db { id := 5, role := Role.project_lead } 1 2 =
      { status := 204, msg := none, db := removeUserFromProject c5db 1 2 } ∧
    removeAssignmentRoute c5db { id := 2, role := Role.developer } 1 2 =
      { status := 403, msg := some Msg.insufficientPermissions, db := c5db } := by
  exact ⟨(remove_role_gate_only c5db { id := 5, role := Role.project_lead } 1 2).2
      (Or.inr rfl),
    (remove_role_gate_only c5db { id := 2, role := Role.developer } 1 2).1 rfl⟩

/-- C6: the project list returned to an admin or a project lead is the full
project collection — regardless of any membership or leadership of theirs —
and the list returned to a developer contains exactly the projects they hold
a membership on. -/
theorem visible_projects_by_role (db : DB) (actor : User) :
    ((actor.role = Role.admin ∨ actor.role = Role.project_lead) →
      projectsRoute db actor = db.projects) ∧
    (actor.role = Role.developer →
      ∀ p : Project, p ∈ projectsRoute db actor ↔
        p ∈ db.projects ∧ ∃ a ∈ db.assignments, a.userId = actor.id ∧ a.projectId = p.id) := by
  constructor
  · intro h
    rcases h with h | h <;>
      · rw [projectsRoute, h]
        rfl
  · intro h p
    rw [projectsRoute, h]
    show p ∈ getUserProjects db actor.id ↔ _
    rw [getUserProjects, List.mem_filter, List.any_eq_true]
    constructor
    · rintro ⟨hp, a, ha, hpred⟩
      rw [Bool.and_eq_true, beq_iff_eq, beq_iff_eq] at hpred
      exact ⟨hp, a, ha, hpred⟩
    · rintro ⟨hp, a, ha, h1, h2⟩
      exact ⟨hp, a, ha, by rw [Bool.and_eq_true, beq_iff_eq, beq_iff_eq]; exact ⟨h1, h2⟩⟩

/-- Concrete state for the C6 witness: a project lead with no memberships and
no leadership, a developer with none either. -/
def c6db : DB :=
  { users := [{ id := 5, role := Role.project_lead }, { id := 2, role := Role.developer }]
    projects := [{ id := 1, status := ProjStatus.active, deadline := none,
                   createdBy := 9, projectLeadId := some 9 },
                 { id := 4, status := ProjStatus.on_hold, deadline := none,
                   createdBy := 9, projectLeadId := none }]
    assignments := [], documents := [] }

/-- Witness for C6: the membership-less project lead receives both projects,
the membership-less developer receives none. -/
theorem visible_projects_by_role_witness :
    projectsRoute c6db { id := 5, role := Role.project_lead } = c6db.projects ∧
    ¬ ({ id := 1, status := ProjStatus.active, deadline := none, createdBy := 9,
         projectLeadId := some 9 } ∈
        projectsRoute c6db { id := 2, role := Role.developer }) := by
  constructor
  · exact (visible_projects_by_role c6db { id := 5, role := Role.project_lead }).1
      (Or.inr rfl)
  · intro hmem
    have h := ((visible_projects_by_role c6db { id := 2, role := Role.developer }).2
      rfl _).mp hmem
    rcases h with ⟨-, a, ha, -⟩
    simp [c6db] at ha

/-- Concrete state for C7: project `1` owns one membership (of user `2`) and
one document; user `2` holds that single membership. -/
def c7db : DB :=
  { users := [{ id := 2, role := Role.developer }, { id := 3, role := Role.admin }]
    projects := [{ id := 1, status := ProjStatus.active, deadline := none,
                   createdBy := 3, projectLeadId := none }]
    assignments := [{ projectId := 1, userId := 2, assignedBy := 3 }]
    documents := [{ id := 10, projectId := 1 }] }

/-- C7 (code bug in the user half): deleting project `1` removes its
memberships and documents as claimed, but deleting user `2` removes only the
user record — the membership referencing `2` survives as an orphan, because
`deleteUser` performs `User.findByIdAndDelete` with no accompanying
`ProjectAssignment.deleteMany({ userId })`. -/
theorem delete_cascade_behaviour :
    (deleteProject c7db 1).assignments = [] ∧
    (deleteProject c7db 1).documents = [] ∧
    (deleteUser c7db 2).users.any (fun u => u.id == 2) = false ∧
    (deleteUser c7db 2).assignments = [{ projectId := 1, userId := 2, assignedBy := 3 }] := by
  decide

theorem projLeadInvB_updateLead (db : DB) (pid lid : Nat) (u : User)
    (hfind : getUser db lid = some u)
    (hrole : u.role = Role.project_lead ∨ u.role = Role.admin)
    (h : projLeadInvB db = true) :
    projLeadInvB (updateProject db pid { projectLeadId := some (some lid) }) = true := by
  rw [projLeadInvB, List.all_eq_true] at h
  rw [projLeadInvB, List.all_eq_true]
  intro p hp
  have hp' : p ∈ db.projects.map
      (fun q => if q.id == pid then applyUpdates q { projectLeadId := some (some lid) } else q) := hp
  rw [List.mem_map] at hp'
  obtain ⟨q, hq, rfl⟩ := hp'
  by_cases hid : (q.id == pid) = true
  · rw [if_pos hid]
    show (match (applyUpdates q { projectLeadId := some (some lid) }).projectLeadId with
      | none => true
      | some lid' => db.users.any (fun u' =>
          u'.id == lid' && (u'.role == Role.project_lead || u'.role == Role.admin))) = true
    have hpl : (applyUpdates q { projectLeadId := some (some lid) }).projectLeadId = some lid := rfl
    rw [hpl]
    rw [List.any_eq_true]
    refine ⟨u, List.mem_of_find?_eq_some hfind, ?_⟩
    have hid' : (u.id == lid) = true := by
      have := List.find?_some hfind
      simpa using this
    rw [hid', Bool.true_and]
    rcases hrole with h' | h' <;> rw [h'] <;> decide
  · rw [if_neg hid]
    exact h q hq

/-- Concrete state for C8: the lead-role invariant holds (project `1` is led
by project lead `9`); user `7` is a developer. -/
def c8db : DB :=
  { users := [{ id := 3, role := Role.admin }, { id := 7, role := Role.developer },
              { id := 9, role := Role.project_lead }]
    projects := [{ id := 1, status := ProjStatus.active, deadline := none,
                   createdBy := 3, projectLeadId := some 9 }]
    assignments := [], documents := [] }

/-- Counterexample to C8: the project-update endpoint writes `projectLeadId`
through without validating the referenced user's role — an admin PATCH
setting `projectLeadId` to developer `7` is accepted 200 and breaks the
invariant. -/
theorem patch_sets_developer_as_lead :
    projLeadInvB c8db = true ∧
    (patchProjectRoute c8db { id := 3, role := Role.admin } 1
        { projectLeadId := some (some 7) }).status = 200 ∧
    projLeadInvB (patchProjectRoute c8db { id := 3, role := Role.admin } 1
        { projectLeadId := some (some 7) }).db = false := by
  decide

/-- C8 (amended): of the operations that can set `projectLeadId`, only
ASSIGN_LEAD validates the referenced user's role (`project_lead` or
`admin`, anything else rejected 400), and it does preserve the invariant;
project creation and project update write the field through unvalidated and
can violate it. -/
theorem assign_lead_preserves_invariant (db : DB) (actor : User) (pid : Nat)
    (lidOpt : Option Nat) (h : projLeadInvB db = true) :
    projLeadInvB (assignLeadRoute db actor pid lidOpt).db = true := by
  unfold assignLeadRoute
  by_cases hadm : (actor.role == Role.admin) = true
  · rw [hadm]
    cases lidOpt with
    | none => simpa using h
    | some lid =>
      cases hfind : getUser db lid with
      | none => simpa [hfind] using h
      | some pl =>
        cases hr : pl.role with
        | developer => simpa [hfind, hr] using h
        | project_lead =>
          simp only [hfind, hr]
          have : projLeadInvB (updateProject db pid { projectLeadId := some (some lid) }) = true :=
            projLeadInvB_updateLead db pid lid pl hfind (Or.inl hr) h
          simpa using this
        | admin =>
          simp only [hfind, hr]
          have : projLeadInvB (updateProject db pid { projectLeadId := some (some lid) }) = true :=
            projLeadInvB_updateLead db pid lid pl hfind (Or.inr hr) h
          simpa using this
  · rw [Bool.not_eq_true] at hadm
    simpa [hadm] using h

/-- Witness for the amended C8: at the concrete state, re-assigning the lead
to project lead `9` keeps the invariant. -/
theorem assign_lead_preserves_invariant_witness :
    projLeadInvB (assignLeadRoute c8db { id := 3, role := Role.admin } 1 (some 9)).db = true :=
  assign_lead_preserves_invariant c8db { id := 3, role := Role.admin } 1 (some 9) (by decide)

/-- Concrete state for C9: one project, `completed`, with a deadline one
millisecond after `now = 0`. -/
def c9db : DB :=
  { users := [{ id := 3, role := Role.admin }]
    projects := [{ id := 1, status := ProjStatus.completed, deadline := some 1,
                   createdBy := 3, projectLeadId := none }]
    assignments := [], documents := [] }

/-- Counterexample to C9: the lone visible project is `completed` with a
deadline inside the week window, so the claim asserts `dueThisWeek = 0`; the
aggregator reports `1` — its filter has no `status == active` condition. -/
theorem due_this_week_counts_completed :
    (getDashboardStats c9db 3 Role.admin 0).dueThisWeek = 1 ∧
    ((statsScope c9db 3 Role.admin).filter
        (fun p => p.status == ProjStatus.active && dueThisWeekFilter 0 p)).length = 0 := by
  decide

/-- C9 (amended): for every actor, `dueThisWeek` equals the number of
projects in the aggregator's scope (all projects for an admin, led-plus-
assigned for a project lead, assigned for a developer) whose deadline lies
within `[now, now + 7d]` inclusive — regardless of status. -/
theorem due_this_week_deadline_window (db : DB) (uid : Nat) (role : Role) (now : Int) :
    (getDashboardStats db uid role now).dueThisWeek =
      (statsScope db uid role).countP
        (fun p => match p.deadline with
          | none => false
          | some d => decide (now ≤ d ∧ d ≤ now + msPerWeek)) := by
  rw [getDashboardStats]
  show ((statsScope db uid role).filter (dueThisWeekFilter now)).length = _
  rw [List.countP_eq_length_filter]
  congr 1
  apply List.filter_congr
  intro p _
  rw [dueThisWeekFilter]
  cases p.deadline with
  | none => rfl
  | some d =>
    show (decide (d ≤ now + msPerWeek) && decide (now ≤ d)) = decide (now ≤ d ∧ d ≤ now + msPerWeek)
    by_cases h1 : now ≤ d <;> by_cases h2 : d ≤ now + msPerWeek <;> simp [h1, h2]

theorem parseRoleField_ne_admin {x : RoleField} {r : Role}
    (h : parseRoleField x = some r) : r ≠ Role.admin := by
  cases x <;> rw [parseRoleField] at h <;> cases h <;> decide

/-- Concrete state for C10: one admin, one developer. -/
def c10db : DB :=
  { users := [{ id := 3, role := Role.admin }, { id := 2, role := Role.developer }]
    projects := [], assignments := [], documents := [] }

/-- Counterexample to C10: the unauthenticated `POST /api/auth/register`
with `role: 'admin'` and a fresh email is answered 201 and inserts a new
admin user — the set of admin users grows through the HTTP interface. -/
theorem register_can_mint_admin :
    registerRoute c10db
        { fieldsPresent := true, emailFresh := true, role := RoleField.adminRole } 11 =
      { status := 201, msg := none
        db := { c10db with users := { id := 11, role := Role.admin } :: c10db.users } } ∧
    ¬ (({ id := 11, role := Role.admin } : User) ∈ c10db.users) := by
  decide

/-- C10 (amended): the admin-management endpoints cannot mint an admin —
every admin present after `POST /api/users` or `PATCH /api/users/:id/role`
was present before, creation defaults an absent role to `developer`, and the
role-change endpoint answers 400 to the literal `admin` — but the
unauthenticated `POST /api/auth/register` passes the body's role through,
so a register request carrying `admin` (present fields, fresh email)
creates an admin user. -/
theorem no_admin_via_api (db : DB) (actor : User) (req : CreateUserRequest)
    (reg : RegisterRequest) (newId targetId regId : Nat) (role : RoleField) :
    (∀ u : User, u ∈ (createUserRoute db actor req newId).db.users →
      u.role = Role.admin → u ∈ db.users) ∧
    (∀ u : User, u ∈ (updateUserRoleRoute db actor targetId role).db.users →
      u.role = Role.admin → u ∈ db.users) ∧
    ((createUserRoute db actor req newId).status = 201 → req.role = RoleField.absent →
      ∃ u : User, (createUserRoute db actor req newId).db.users = u :: db.users ∧
        u.role = Role.developer) ∧
    (actor.role = Role.admin →
      updateUserRoleRoute db actor targetId RoleField.adminRole =
        { status := 400, msg := some Msg.invalidRole, db := db }) ∧
    (reg.fieldsPresent = true → reg.emailFresh = true →
      reg.role = RoleField.adminRole →
      registerRoute db reg regId =
        { status := 201, msg := none
          db := { db with users := { id := regId, role := Role.admin } :: db.users } }) := by
  refine ⟨?_, ?_, ?_, ?_, ?_⟩
  · intro u hu hadm
    rw [createUserRoute] at hu
    split at hu
    · exact hu
    · split at hu
      · exact hu
      · split at hu
        · exact hu
        · rename_i r heq
          split at hu
          · exact hu
          · rcases List.mem_cons.mp hu with h' | h'
            · rw [h'] at hadm
              exact absurd hadm (parseRoleField_ne_admin heq)
            · exact h'
  · intro u hu hadm
    rw [updateUserRoleRoute] at hu
    split at hu
    · exact hu
    · split at hu
      · exact hu
      · rw [List.mem_map] at hu
        obtain ⟨v, hv, rfl⟩ := hu
        by_cases hid : (v.id == targetId) = true
        · rw [if_pos hid] at hadm ⊢
          exfalso
          by_cases hpl : (role == RoleField.projectLead) = true
          · rw [if_pos hpl] at hadm
            simp at hadm
          · rw [if_neg hpl] at hadm
            simp at hadm
        · rw [if_neg hid]
          rw [if_neg hid] at hadm
          exact hv
  · intro hok habs
    rw [createUserRoute] at hok ⊢
    rw [habs] at hok ⊢
    by_cases g1 : (actor.role == Role.admin) = true
    · by_cases g2 : req.hasPassword = true
      · by_cases g3 : req.validProfile = true
        · refine ⟨{ id := newId, role := Role.developer }, ?_, rfl⟩
          simp [g1, g2, g3, parseRoleField]
        · exfalso
          simp [g1, g2, g3, parseRoleField] at hok
      · exfalso
        simp [g1, g2, parseRoleField] at hok
    · exfalso
      simp [g1] at hok
  · intro hadm
    rw [updateUserRoleRoute, hadm]
    rfl
  · intro hf he hr
    rw [registerRoute, hf, he, hr]
    rfl

/-- Witness for the amended C10: at the concrete state an admin's attempt to
set a user's role to `admin` is answered 400 with the store unchanged, while
an unauthenticated register request carrying `admin` is answered 201. -/
theorem no_admin_via_api_witness :
    updateUserRoleRoute c10db { id := 3, role := Role.admin } 2 RoleField.adminRole =
      { status := 400, msg := some Msg.invalidRole, db := c10db } ∧
    (registerRoute c10db
        { fieldsPresent := true, emailFresh := true, role := RoleField.adminRole } 12).status =
      201 := by
  have h := no_admin_via_api c10db { id := 3, role := Role.admin }
    { hasPassword := true, validProfile := true, role := RoleField.absent }
    { fieldsPresent := true, emailFresh := true, role := RoleField.adminRole } 11 2 12
    RoleField.adminRole
  refine ⟨h.2.2.2.1 rfl, ?_⟩
  rw [h.2.2.2.2 rfl rfl rfl]

end Assi
